import Mathlib

/-!
Verification of the Neptune bulk-load orchestration in
`src/db_services/aws_netpune/graph_loader.py` (class `GenerateNode`,
static methods `create_node` and `upsert_node`).

The embedding models:
  * the JSON submission payloads built by the two methods as association
    lists (Python dict literals, lines 25-35 and 72-81);
  * the remote collaborator (`Rest`) as an explicit environment: one HTTP
    response for the submission POST and a function `Nat → HttpResp`
    giving the response to the k-th status GET (0-indexed);
  * the observable effects of one call as a `Trace` (number of status
    fetches performed, number of extra backoff pauses `time.sleep(3)`,
    number of `Logging.error` records emitted);
  * Python exceptions as an `Except` error result: the submission-failure
    raise (lines 38-39 / 84-85), the poll-failure raise (lines 46-47 /
    92-93), `KeyError` from a missing JSON field lookup, and `TypeError`
    from `range(None)` when the `limit` parameter keeps its default.

Status codes are the constants `LOAD_COMPLETED`, `LOAD_FAILED`,
`LOAD_IN_QUEUE` imported from `rplus_constants`, plus arbitrary other
codes (e.g. the in-progress sub-states), modelled as an inductive type.
-/

namespace GraphLoader

/-- A job status code: the three distinguished constants from
`rplus_constants` used in the membership test on lines 53 / 100, or any
other code string (transitional / in-progress sub-states). -/
inductive LoadStatus where
  | completed
  | failed
  | inQueue
  | transitional (code : String)
deriving DecidableEq, Repr

/-- Constant `LOAD_COMPLETED` from `rplus_constants`. -/
def LOAD_COMPLETED : LoadStatus := .completed

/-- Constant `LOAD_FAILED` from `rplus_constants`. -/
def LOAD_FAILED : LoadStatus := .failed

/-- Constant `LOAD_IN_QUEUE` from `rplus_constants`. -/
def LOAD_IN_QUEUE : LoadStatus := .inQueue

/-- The in-progress code used by the spec scenarios; any
`transitional` code behaves the same way in the loop. -/
def LOAD_IN_PROGRESS : LoadStatus := .transitional "LOAD_IN_PROGRESS"

/-- The membership test of lines 53 / 100:
`status in [LOAD_COMPLETED, LOAD_FAILED, LOAD_IN_QUEUE]`. -/
def isStopping (s : LoadStatus) : Bool :=
  [LOAD_COMPLETED, LOAD_FAILED, LOAD_IN_QUEUE].contains s

/-- The parts of a Neptune JSON body the code reads:
`response[PAYLOAD][LOAD_ID]` and
`response[PAYLOAD][OVERALLSTATUS][STATUS]`.  A missing nesting is `none`
(reading it raises `KeyError` in Python). -/
structure NeptuneResponse where
  loadId : Option String
  overallStatus : Option LoadStatus
deriving DecidableEq, Repr

/-- An HTTP response: its status code and parsed JSON body. -/
structure HttpResp where
  status_code : Nat
  body : NeptuneResponse
deriving DecidableEq, Repr

/-- The exceptions a call can raise. -/
inductive GraphError where
  | submissionError
  | pollError
  | keyError
  | typeError
deriving DecidableEq, Repr

/-- Observable side effects of one call: the number of status GETs
performed, the number of extra backoff pauses (`time.sleep(3)`, lines
54 / 101), and the number of `Logging.error` records (line 105). -/
structure Trace where
  fetches : Nat
  backoffs : Nat
  errorLogs : Nat
deriving DecidableEq, Repr

/-- The submission payload dict of `create_node`, lines 25-35. -/
def createPayload (bucket key iamRoleId region : String) :
    List (String × String) :=
  [("source", "s3://" ++ bucket ++ "/" ++ key),
   ("format", "csv"),
   ("mode", "AUTO"),
   ("iamRoleArn", "arn:aws:iam::" ++ iamRoleId ++ ":role/NeptuneAccessS3"),
   ("region", region),
   ("failOnError", "FALSE"),
   ("parallelism", "MEDIUM"),
   ("queueRequest", "TRUE"),
   ("updateSingleCardinalityProperties", "FALSE")]

/-- The submission payload dict of `upsert_node`, lines 72-81.  Note it
has no `queueRequest` entry at all. -/
def upsertPayload (bucket key iamRoleId region : String) :
    List (String × String) :=
  [("source", "s3://" ++ bucket ++ "/" ++ key),
   ("format", "csv"),
   ("mode", "AUTO"),
   ("iamRoleArn", "arn:aws:iam::" ++ iamRoleId ++ ":role/NeptuneAccessS3"),
   ("region", region),
   ("failOnError", "FALSE"),
   ("parallelism", "MEDIUM"),
   ("updateSingleCardinalityProperties", "TRUE")]

/-- The `for iteration in range(limit)` loop shared by `create_node`
(lines 43-57, `isUpsert = false`) and `upsert_node` (lines 89-107,
`isUpsert = true`), by structural recursion on the number of remaining
iterations.  Arguments: the environment `get` (response to each status
GET, indexed by how many fetches happened before), remaining iterations,
the current value of the Python variable `response`, and the trace so
far.  Returns the value of `response` at loop exit (or the raised
exception) together with the final trace.

Each iteration: perform the GET (counted), raise on a non-200 status
code, re-bind `response` to the new body, read
`response[PAYLOAD][OVERALLSTATUS][STATUS]` (raising `KeyError` if the
nesting is absent); on a code outside
`[LOAD_COMPLETED, LOAD_FAILED, LOAD_IN_QUEUE]` take the extra backoff
pause (counted) and continue, otherwise `break` — the upsert variant
first emitting one `Logging.error` record when the code equals
`LOAD_FAILED`. -/
def pollLoop (isUpsert : Bool) (get : Nat → HttpResp) :
    Nat → NeptuneResponse → Trace →
    (Except GraphError NeptuneResponse) × Trace
  | 0, response, tr => (.ok response, tr)
  | n + 1, _, tr =>
    let resp := get tr.fetches
    let tr1 : Trace := { tr with fetches := tr.fetches + 1 }
    if resp.status_code ≠ 200 then
      (.error .pollError, tr1)
    else
      let response := resp.body
      match response.overallStatus with
      | none => (.error .keyError, tr1)
      | some s =>
        if isStopping s then
          if isUpsert ∧ s = LOAD_FAILED then
            (.ok response, { tr1 with errorLogs := tr1.errorLogs + 1 })
          else
            (.ok response, tr1)
        else
          pollLoop isUpsert get n response
            { tr1 with backoffs := tr1.backoffs + 1 }

/-- The submission step shared by both methods (lines 36-41 / 82-87):
raise on a non-200 POST response, then read
`response[PAYLOAD][LOAD_ID]` (raising `KeyError` if absent). -/
def submitResult (postResp : HttpResp) : Except GraphError String :=
  if postResp.status_code ≠ 200 then .error .submissionError
  else
    match postResp.body.loadId with
    | none => .error .keyError
    | some qid => .ok qid

/-- The whole body of `create_node` (`isUpsert = false`) and
`upsert_node` (`isUpsert = true`): submission, then — since
`range(limit)` raises `TypeError` when `limit` is `None` — the poll loop
with `limit` iterations starting from `response` bound to the submission
body, and finally the return-value lookup
`response[PAYLOAD][OVERALLSTATUS][STATUS]` (line 59 / 109), which raises
`KeyError` when the loop body never re-bound `response`. -/
def loadAndPoll (isUpsert : Bool) (limit : Option Nat)
    (postResp : HttpResp) (get : Nat → HttpResp) :
    (Except GraphError LoadStatus) × Trace :=
  let tr0 : Trace := ⟨0, 0, 0⟩
  match submitResult postResp with
  | .error e => (.error e, tr0)
  | .ok _ =>
    match limit with
    | none => (.error .typeError, tr0)
    | some n =>
      match pollLoop isUpsert get n postResp.body tr0 with
      | (.error e, tr) => (.error e, tr)
      | (.ok response, tr) =>
        match response.overallStatus with
        | none => (.error .keyError, tr)
        | some s => (.ok s, tr)

/-- The method `GenerateNode.create_node` (lines 15-59), with the
network as an explicit environment. -/
def create_node (limit : Option Nat) (postResp : HttpResp)
    (get : Nat → HttpResp) : (Except GraphError LoadStatus) × Trace :=
  loadAndPoll false limit postResp get

/-- The method `GenerateNode.upsert_node` (lines 61-109), with the
network as an explicit environment. -/
def upsert_node (limit : Option Nat) (postResp : HttpResp)
    (get : Nat → HttpResp) : (Except GraphError LoadStatus) × Trace :=
  loadAndPoll true limit postResp get

/-- A status GET response that lets the loop continue: HTTP 200 and a
status code outside the stopping set. -/
def okTransitional (r : HttpResp) : Bool :=
  r.status_code == 200 &&
    (match r.body.overallStatus with
     | some s => !(isStopping s)
     | none => false)


theorem pollLoop_succ (isUpsert : Bool) (get : Nat → HttpResp) (n : Nat)
    (response : NeptuneResponse) (tr : Trace) :
    pollLoop isUpsert get (n + 1) response tr =
      (let resp := get tr.fetches
       let tr1 : Trace := { tr with fetches := tr.fetches + 1 }
       if resp.status_code ≠ 200 then
         (.error .pollError, tr1)
       else
         match resp.body.overallStatus with
         | none => (.error .keyError, tr1)
         | some s =>
           if isStopping s then
             if isUpsert ∧ s = LOAD_FAILED then
               (.ok resp.body, { tr1 with errorLogs := tr1.errorLogs + 1 })
             else
               (.ok resp.body, tr1)
           else
             pollLoop isUpsert get n resp.body
               { tr1 with backoffs := tr1.backoffs + 1 }) := rfl

theorem pollLoop_step_transitional (isUpsert : Bool) (get : Nat → HttpResp)
    (n : Nat) (response : NeptuneResponse) (tr : Trace)
    (h : okTransitional (get tr.fetches) = true) :
    pollLoop isUpsert get (n + 1) response tr =
      pollLoop isUpsert get n (get tr.fetches).body
        ⟨tr.fetches + 1, tr.backoffs + 1, tr.errorLogs⟩ := by
  unfold okTransitional at h
  rw [pollLoop_succ]
  simp only [Bool.and_eq_true, beq_iff_eq] at h
  obtain ⟨h200, hst⟩ := h
  rcases hmatch : (get tr.fetches).body.overallStatus with _ | s
  · rw [hmatch] at hst; simp at hst
  · rw [hmatch] at hst
    simp only [Bool.not_eq_eq_eq_not, Bool.not_true] at hst
    simp [h200, hmatch, hst]


theorem pollLoop_skip (isUpsert : Bool) (get : Nat → HttpResp) :
    ∀ (j n : Nat) (response : NeptuneResponse) (tr : Trace),
      j ≤ n →
      (∀ k, k < j → okTransitional (get (tr.fetches + k)) = true) →
      pollLoop isUpsert get n response tr =
        pollLoop isUpsert get (n - j)
          (if j = 0 then response else (get (tr.fetches + (j - 1))).body)
          ⟨tr.fetches + j, tr.backoffs + j, tr.errorLogs⟩ := by
  intro j
  induction j with
  | zero =>
    intro n response tr _ _
    simp
  | succ j ih =>
    intro n response tr hjn htrans
    obtain ⟨m, rfl⟩ : ∃ m, n = m + 1 := ⟨n - 1, by omega⟩
    have h0 : okTransitional (get (tr.fetches + 0)) = true := htrans 0 (by omega)
    rw [Nat.add_zero] at h0
    rw [pollLoop_step_transitional isUpsert get m response tr h0]
    rw [ih m (get tr.fetches).body ⟨tr.fetches + 1, tr.backoffs + 1, tr.errorLogs⟩
        (by omega) (by intro k hk; have := htrans (k + 1) (by omega); simpa [Nat.add_assoc, Nat.add_comm 1 k] using this)]
    rcases Nat.eq_zero_or_pos j with hj0 | hjpos
    · subst hj0; simp [Nat.add_comm]
    · have hj1 : j ≠ 0 := by omega
      have hsj : j + 1 ≠ 0 := by omega
      simp only [hj1, hsj, if_false]
      have h1 : tr.fetches + 1 + (j - 1) = tr.fetches + (j + 1 - 1) := by omega
      have h2 : m + 1 - (j + 1) = m - j := by omega
      have h3 : tr.fetches + 1 + j = tr.fetches + (j + 1) := by omega
      have h4 : tr.backoffs + 1 + j = tr.backoffs + (j + 1) := by omega
      rw [h1, h2, h3, h4]


theorem pollLoop_exhaust (isUpsert : Bool) (get : Nat → HttpResp)
    (n : Nat) (response : NeptuneResponse)
    (hn : 1 ≤ n)
    (htrans : ∀ k, k < n → okTransitional (get k) = true) :
    pollLoop isUpsert get n response ⟨0, 0, 0⟩ =
      (.ok (get (n - 1)).body, ⟨n, n, 0⟩) := by
  have := pollLoop_skip isUpsert get n n response ⟨0, 0, 0⟩ (le_refl n)
    (by intro k hk; simpa using htrans k hk)
  have hn0 : n ≠ 0 := by omega
  simp only [hn0, if_false, Nat.sub_self, Nat.zero_add] at this
  rw [this]
  rfl

theorem pollLoop_stop (isUpsert : Bool) (get : Nat → HttpResp)
    (n j : Nat) (response : NeptuneResponse) (s : LoadStatus)
    (hjn : j < n)
    (htrans : ∀ k, k < j → okTransitional (get k) = true)
    (h200 : (get j).status_code = 200)
    (hs : (get j).body.overallStatus = some s)
    (hstop : isStopping s = true) :
    pollLoop isUpsert get n response ⟨0, 0, 0⟩ =
      (.ok (get j).body,
       ⟨j + 1, j, if isUpsert ∧ s = LOAD_FAILED then 1 else 0⟩) := by
  have hskip := pollLoop_skip isUpsert get j n response ⟨0, 0, 0⟩ (by omega)
    (by intro k hk; simpa using htrans k hk)
  rw [hskip]
  obtain ⟨m, hm⟩ : ∃ m, n - j = m + 1 := ⟨n - j - 1, by omega⟩
  rw [hm, pollLoop_succ]
  have hfetch : (⟨0 + j, 0 + j, 0⟩ : Trace).fetches = j := by simp
  rw [hfetch]
  simp only [h200, ne_eq, not_true_eq_false, if_false, hs, hstop, if_true]
  rcases Nat.eq_zero_or_pos j with hj0 | hjpos
  · subst hj0
    by_cases hcase : isUpsert ∧ s = LOAD_FAILED <;> simp [hcase]
  · have hj1 : j ≠ 0 := by omega
    by_cases hcase : isUpsert ∧ s = LOAD_FAILED <;> simp [hcase, hj1]

theorem pollLoop_httpError (isUpsert : Bool) (get : Nat → HttpResp)
    (n j : Nat) (response : NeptuneResponse)
    (hjn : j < n)
    (htrans : ∀ k, k < j → okTransitional (get k) = true)
    (hbad : (get j).status_code ≠ 200) :
    pollLoop isUpsert get n response ⟨0, 0, 0⟩ =
      (.error .pollError, ⟨j + 1, j, 0⟩) := by
  have hskip := pollLoop_skip isUpsert get j n response ⟨0, 0, 0⟩ (by omega)
    (by intro k hk; simpa using htrans k hk)
  rw [hskip]
  obtain ⟨m, hm⟩ : ∃ m, n - j = m + 1 := ⟨n - j - 1, by omega⟩
  rw [hm, pollLoop_succ]
  have hfetch : (⟨0 + j, 0 + j, 0⟩ : Trace).fetches = j := by simp
  rw [hfetch]
  simp [hbad]

theorem loadAndPoll_submitOk (isUpsert : Bool) (n : Nat)
    (postResp : HttpResp) (get : Nat → HttpResp) (qid : String)
    (hpost : postResp.status_code = 200)
    (hid : postResp.body.loadId = some qid) :
    loadAndPoll isUpsert (some n) postResp get =
      (match pollLoop isUpsert get n postResp.body ⟨0, 0, 0⟩ with
       | (.error e, tr) => (.error e, tr)
       | (.ok response, tr) =>
         match response.overallStatus with
         | none => (.error .keyError, tr)
         | some s => (.ok s, tr)) := by
  unfold loadAndPoll submitResult
  simp [hpost, hid]

/-- A status GET response on which the loop takes the transitional
branch: HTTP 200 with a status code outside the stopping set. -/
theorem okTransitional_of (r : HttpResp) (s : LoadStatus)
    (h200 : r.status_code = 200) (hs : r.body.overallStatus = some s)
    (hstop : isStopping s = false) : okTransitional r = true := by
  unfold okTransitional
  rw [h200, hs]
  simp [hstop]

/-- C1: for every `maxIterations ≥ 1`, if every status response during
polling carries a transitional code (HTTP 200, status outside
`{COMPLETED, FAILED, IN_QUEUE}`), then both `create_node` and
`upsert_node` (after a successful submission) perform exactly
`maxIterations` status fetches — no more, no fewer — and return the
budget-exhausted outcome: the last observed transitional code, which is
outside the stopping set and in particular never `LOAD_FAILED`. -/
theorem budget_exhausted_returns_last_transitional (n : Nat)
    (postResp : HttpResp) (get : Nat → HttpResp) (qid : String)
    (hn : 1 ≤ n)
    (hpost : postResp.status_code = 200)
    (hid : postResp.body.loadId = some qid)
    (htrans : ∀ k, k < n → okTransitional (get k) = true) :
    ∃ s, (get (n - 1)).body.overallStatus = some s ∧
      isStopping s = false ∧ s ≠ LOAD_FAILED ∧
      create_node (some n) postResp get = (.ok s, ⟨n, n, 0⟩) ∧
      upsert_node (some n) postResp get = (.ok s, ⟨n, n, 0⟩) := by
  have hlast := htrans (n - 1) (by omega)
  unfold okTransitional at hlast
  simp only [Bool.and_eq_true, beq_iff_eq] at hlast
  obtain ⟨h200, hst⟩ := hlast
  rcases hm : (get (n - 1)).body.overallStatus with _ | s
  · rw [hm] at hst; simp at hst
  · rw [hm] at hst
    simp only [Bool.not_eq_eq_eq_not, Bool.not_true] at hst
    refine ⟨s, rfl, hst, ?_, ?_, ?_⟩
    · intro hcontra; subst hcontra; simp [isStopping] at hst
    · unfold create_node
      rw [loadAndPoll_submitOk false n postResp get qid hpost hid]
      rw [pollLoop_exhaust false get n postResp.body hn htrans]
      simp [hm]
    · unfold upsert_node
      rw [loadAndPoll_submitOk true n postResp get qid hpost hid]
      rw [pollLoop_exhaust true get n postResp.body hn htrans]
      simp [hm]

/-- C1 witness: with budget 2 and every status response in progress,
both methods perform exactly 2 fetches and return the in-progress
code. -/
theorem budget_exhausted_returns_last_transitional_witness :
    ∃ s, ((fun _ => (⟨200, ⟨none, some (.transitional "LOAD_IN_PROGRESS")⟩⟩ : HttpResp)) (2 - 1)).body.overallStatus = some s ∧
      isStopping s = false ∧ s ≠ LOAD_FAILED ∧
      create_node (some 2) ⟨200, ⟨some "job1", none⟩⟩
        (fun _ => ⟨200, ⟨none, some (.transitional "LOAD_IN_PROGRESS")⟩⟩) = (.ok s, ⟨2, 2, 0⟩) ∧
      upsert_node (some 2) ⟨200, ⟨some "job1", none⟩⟩
        (fun _ => ⟨200, ⟨none, some (.transitional "LOAD_IN_PROGRESS")⟩⟩) = (.ok s, ⟨2, 2, 0⟩) :=
  budget_exhausted_returns_last_transitional 2 ⟨200, ⟨some "job1", none⟩⟩
    (fun _ => ⟨200, ⟨none, some (.transitional "LOAD_IN_PROGRESS")⟩⟩) "job1"
    (by omega) rfl rfl (fun k _ => rfl)

/-- C2 (counterexample): the claim says `upsert_node` sets the
`queueRequest` payload field to false; in the code the upsert payload
(lines 72-81) carries no `queueRequest` entry at all, so at a concrete
source key its lookup is `none`, not a false value. -/
theorem upsert_payload_queueRequest_absent :
    List.lookup "queueRequest" (upsertPayload "bucket" "objkey" "123" "ap-south-1") = none ∧
    ¬ (List.lookup "queueRequest" (upsertPayload "bucket" "objkey" "123" "ap-south-1")
        = some "FALSE") := by
  decide

/-- C2 (amended): the create and upsert submission payloads differ only
in the two queueing/overwrite fields: `create_node` sets `queueRequest`
to `"TRUE"` and `updateSingleCardinalityProperties` to `"FALSE"`, while
`upsert_node` omits the `queueRequest` field entirely (leaving the
remote default, i.e. queueing not requested) and sets
`updateSingleCardinalityProperties` to `"TRUE"`; restricted to every
other field the two payloads are identical for the same source key,
role and region. -/
theorem payloads_differ_only_in_two_fields (b k i r : String) :
    List.lookup "queueRequest" (createPayload b k i r) = some "TRUE" ∧
    List.lookup "updateSingleCardinalityProperties" (createPayload b k i r) = some "FALSE" ∧
    List.lookup "queueRequest" (upsertPayload b k i r) = none ∧
    List.lookup "updateSingleCardinalityProperties" (upsertPayload b k i r) = some "TRUE" ∧
    (createPayload b k i r).filter
        (fun p => !(p.1 == "queueRequest") && !(p.1 == "updateSingleCardinalityProperties")) =
      (upsertPayload b k i r).filter
        (fun p => !(p.1 == "queueRequest") && !(p.1 == "updateSingleCardinalityProperties")) :=
  ⟨rfl, rfl, rfl, rfl, rfl⟩

/-- C3: whenever the first status response carries `LOAD_IN_QUEUE`, both
methods stop after that single fetch and return the queued status as the
outcome, with no backoff pause and no further iteration: `IN_QUEUE` is a
stopping condition, never treated as transitional. -/
theorem first_in_queue_stops_immediately (n : Nat) (postResp : HttpResp)
    (get : Nat → HttpResp) (qid : String)
    (hn : 1 ≤ n)
    (hpost : postResp.status_code = 200)
    (hid : postResp.body.loadId = some qid)
    (h200 : (get 0).status_code = 200)
    (hq : (get 0).body.overallStatus = some LOAD_IN_QUEUE) :
    create_node (some n) postResp get = (.ok LOAD_IN_QUEUE, ⟨1, 0, 0⟩) ∧
    upsert_node (some n) postResp get = (.ok LOAD_IN_QUEUE, ⟨1, 0, 0⟩) := by
  have hstop : isStopping LOAD_IN_QUEUE = true := by decide
  constructor
  · unfold create_node
    rw [loadAndPoll_submitOk false n postResp get qid hpost hid]
    rw [pollLoop_stop false get n 0 postResp.body LOAD_IN_QUEUE (by omega)
        (by intro k hk; omega) h200 hq hstop]
    simp [hq]
  · unfold upsert_node
    rw [loadAndPoll_submitOk true n postResp get qid hpost hid]
    rw [pollLoop_stop true get n 0 postResp.body LOAD_IN_QUEUE (by omega)
        (by intro k hk; omega) h200 hq hstop]
    simp [hq, LOAD_IN_QUEUE, LOAD_FAILED]

/-- C3 witness: with budget 4 and a first response in queue, both
methods perform one fetch, no backoff, and return the queued status. -/
theorem first_in_queue_stops_immediately_witness :
    create_node (some 4) ⟨200, ⟨some "j", none⟩⟩
        (fun _ => ⟨200, ⟨none, some LOAD_IN_QUEUE⟩⟩) = (.ok LOAD_IN_QUEUE, ⟨1, 0, 0⟩) ∧
    upsert_node (some 4) ⟨200, ⟨some "j", none⟩⟩
        (fun _ => ⟨200, ⟨none, some LOAD_IN_QUEUE⟩⟩) = (.ok LOAD_IN_QUEUE, ⟨1, 0, 0⟩) :=
  first_in_queue_stops_immediately 4 ⟨200, ⟨some "j", none⟩⟩
    (fun _ => ⟨200, ⟨none, some LOAD_IN_QUEUE⟩⟩) "j" (by omega) rfl rfl rfl rfl

/-- C4: for every `maxIterations ≥ 1`, if the first status response
carries `LOAD_COMPLETED`, both methods perform exactly one status fetch,
skip the extra backoff pause, and return the completed status. -/
theorem first_completed_single_fetch (n : Nat) (postResp : HttpResp)
    (get : Nat → HttpResp) (qid : String)
    (hn : 1 ≤ n)
    (hpost : postResp.status_code = 200)
    (hid : postResp.body.loadId = some qid)
    (h200 : (get 0).status_code = 200)
    (hc : (get 0).body.overallStatus = some LOAD_COMPLETED) :
    create_node (some n) postResp get = (.ok LOAD_COMPLETED, ⟨1, 0, 0⟩) ∧
    upsert_node (some n) postResp get = (.ok LOAD_COMPLETED, ⟨1, 0, 0⟩) := by
  have hstop : isStopping LOAD_COMPLETED = true := by decide
  constructor
  · unfold create_node
    rw [loadAndPoll_submitOk false n postResp get qid hpost hid]
    rw [pollLoop_stop false get n 0 postResp.body LOAD_COMPLETED (by omega)
        (by intro k hk; omega) h200 hc hstop]
    simp [hc]
  · unfold upsert_node
    rw [loadAndPoll_submitOk true n postResp get qid hpost hid]
    rw [pollLoop_stop true get n 0 postResp.body LOAD_COMPLETED (by omega)
        (by intro k hk; omega) h200 hc hstop]
    simp [hc, LOAD_COMPLETED, LOAD_FAILED]

/-- C4 witness: with budget 7 and a first response completed, both
methods perform one fetch, no backoff, and return the completed
status. -/
theorem first_completed_single_fetch_witness :
    create_node (some 7) ⟨200, ⟨some "j2", none⟩⟩
        (fun _ => ⟨200, ⟨none, some LOAD_COMPLETED⟩⟩) = (.ok LOAD_COMPLETED, ⟨1, 0, 0⟩) ∧
    upsert_node (some 7) ⟨200, ⟨some "j2", none⟩⟩
        (fun _ => ⟨200, ⟨none, some LOAD_COMPLETED⟩⟩) = (.ok LOAD_COMPLETED, ⟨1, 0, 0⟩) :=
  first_completed_single_fetch 7 ⟨200, ⟨some "j2", none⟩⟩
    (fun _ => ⟨200, ⟨none, some LOAD_COMPLETED⟩⟩) "j2" (by omega) rfl rfl rfl rfl

/-- C5: for the status response sequence
`[IN_PROGRESS, IN_PROGRESS, FAILED]` and any budget `≥ 3`, both methods
perform exactly 3 status fetches (with 2 backoff pauses) and return the
failed status; `upsert_node` additionally emits exactly one error-level
diagnostic log record before returning, while `create_node` emits
none. -/
theorem failed_after_two_in_progress (n : Nat) (postResp : HttpResp)
    (get : Nat → HttpResp) (qid : String)
    (hn : 3 ≤ n)
    (hpost : postResp.status_code = 200)
    (hid : postResp.body.loadId = some qid)
    (h0a : (get 0).status_code = 200)
    (h0b : (get 0).body.overallStatus = some LOAD_IN_PROGRESS)
    (h1a : (get 1).status_code = 200)
    (h1b : (get 1).body.overallStatus = some LOAD_IN_PROGRESS)
    (h2a : (get 2).status_code = 200)
    (h2b : (get 2).body.overallStatus = some LOAD_FAILED) :
    create_node (some n) postResp get = (.ok LOAD_FAILED, ⟨3, 2, 0⟩) ∧
    upsert_node (some n) postResp get = (.ok LOAD_FAILED, ⟨3, 2, 1⟩) := by
  have hinprog : isStopping LOAD_IN_PROGRESS = false := by decide
  have hstop : isStopping LOAD_FAILED = true := by decide
  have htrans : ∀ k, k < 2 → okTransitional (get k) = true := by
    intro k hk
    interval_cases k
    · exact okTransitional_of (get 0) LOAD_IN_PROGRESS h0a h0b hinprog
    · exact okTransitional_of (get 1) LOAD_IN_PROGRESS h1a h1b hinprog
  constructor
  · unfold create_node
    rw [loadAndPoll_submitOk false n postResp get qid hpost hid]
    rw [pollLoop_stop false get n 2 postResp.body LOAD_FAILED (by omega)
        htrans h2a h2b hstop]
    simp [h2b]
  · unfold upsert_node
    rw [loadAndPoll_submitOk true n postResp get qid hpost hid]
    rw [pollLoop_stop true get n 2 postResp.body LOAD_FAILED (by omega)
        htrans h2a h2b hstop]
    simp [h2b]

/-- C5 witness: budget 5 with responses in progress, in progress, then
failed; both methods fetch 3 times, and only the upsert variant logs one
error record. -/
theorem failed_after_two_in_progress_witness :
    create_node (some 5) ⟨200, ⟨some "j3", none⟩⟩
        (fun k => if k < 2 then ⟨200, ⟨none, some LOAD_IN_PROGRESS⟩⟩
                  else ⟨200, ⟨none, some LOAD_FAILED⟩⟩) = (.ok LOAD_FAILED, ⟨3, 2, 0⟩) ∧
    upsert_node (some 5) ⟨200, ⟨some "j3", none⟩⟩
        (fun k => if k < 2 then ⟨200, ⟨none, some LOAD_IN_PROGRESS⟩⟩
                  else ⟨200, ⟨none, some LOAD_FAILED⟩⟩) = (.ok LOAD_FAILED, ⟨3, 2, 1⟩) :=
  failed_after_two_in_progress 5 ⟨200, ⟨some "j3", none⟩⟩
    (fun k => if k < 2 then ⟨200, ⟨none, some LOAD_IN_PROGRESS⟩⟩
              else ⟨200, ⟨none, some LOAD_FAILED⟩⟩) "j3"
    (by omega) rfl rfl rfl rfl rfl rfl rfl rfl

/-- C6: whenever the submission POST returns a non-success HTTP status,
both methods raise the submission error, no job handle is produced by
the submission step, and zero status fetches are performed: the poll
loop is never entered. -/
theorem submission_error_no_polling (limit : Option Nat)
    (postResp : HttpResp) (get : Nat → HttpResp)
    (hbad : postResp.status_code ≠ 200) :
    submitResult postResp = .error .submissionError ∧
    create_node limit postResp get = (.error .submissionError, ⟨0, 0, 0⟩) ∧
    upsert_node limit postResp get = (.error .submissionError, ⟨0, 0, 0⟩) := by
  have hsub : submitResult postResp = .error .submissionError := by
    unfold submitResult
    simp [hbad]
  refine ⟨hsub, ?_, ?_⟩
  · unfold create_node loadAndPoll
    rw [hsub]
  · unfold upsert_node loadAndPoll
    rw [hsub]

/-- C6 witness: an HTTP 500 submission response yields the submission
error with zero fetches, even though the status endpoint would have
answered completed. -/
theorem submission_error_no_polling_witness :
    submitResult ⟨500, ⟨some "j4", none⟩⟩ = .error .submissionError ∧
    create_node (some 3) ⟨500, ⟨some "j4", none⟩⟩
        (fun _ => ⟨200, ⟨none, some LOAD_COMPLETED⟩⟩) = (.error .submissionError, ⟨0, 0, 0⟩) ∧
    upsert_node (some 3) ⟨500, ⟨some "j4", none⟩⟩
        (fun _ => ⟨200, ⟨none, some LOAD_COMPLETED⟩⟩) = (.error .submissionError, ⟨0, 0, 0⟩) :=
  submission_error_no_polling (some 3) ⟨500, ⟨some "j4", none⟩⟩
    (fun _ => ⟨200, ⟨none, some LOAD_COMPLETED⟩⟩) (by decide)

/-- C7: if the first `j` status responses are transitional and the
status fetch at 0-based index `j < maxIterations` (i.e. 1-based
iteration `j + 1 ≤ maxIterations`) returns a non-success HTTP status,
both methods abort at that iteration with the poll error: exactly
`j + 1` fetches are performed (the later iterations never execute), the
response at iteration `j + 1` is never classified (no extra backoff, no
error log there), and the error is not retried. -/
theorem poll_http_error_aborts_loop (n j : Nat) (postResp : HttpResp)
    (get : Nat → HttpResp) (qid : String)
    (hj : j < n)
    (hpost : postResp.status_code = 200)
    (hid : postResp.body.loadId = some qid)
    (htrans : ∀ k, k < j → okTransitional (get k) = true)
    (hbad : (get j).status_code ≠ 200) :
    create_node (some n) postResp get = (.error .pollError, ⟨j + 1, j, 0⟩) ∧
    upsert_node (some n) postResp get = (.error .pollError, ⟨j + 1, j, 0⟩) := by
  constructor
  · unfold create_node
    rw [loadAndPoll_submitOk false n postResp get qid hpost hid]
    rw [pollLoop_httpError false get n j postResp.body hj htrans hbad]
  · unfold upsert_node
    rw [loadAndPoll_submitOk true n postResp get qid hpost hid]
    rw [pollLoop_httpError true get n j postResp.body hj htrans hbad]

/-- C7 witness: budget 5, first response in progress, second fetch
answers HTTP 500; both methods stop after 2 fetches with the poll
error. -/
theorem poll_http_error_aborts_loop_witness :
    create_node (some 5) ⟨200, ⟨some "j5", none⟩⟩
        (fun k => if k < 1 then ⟨200, ⟨none, some LOAD_IN_PROGRESS⟩⟩
                  else ⟨500, ⟨none, none⟩⟩) = (.error .pollError, ⟨2, 1, 0⟩) ∧
    upsert_node (some 5) ⟨200, ⟨some "j5", none⟩⟩
        (fun k => if k < 1 then ⟨200, ⟨none, some LOAD_IN_PROGRESS⟩⟩
                  else ⟨500, ⟨none, none⟩⟩) = (.error .pollError, ⟨2, 1, 0⟩) :=
  poll_http_error_aborts_loop 5 1 ⟨200, ⟨some "j5", none⟩⟩
    (fun k => if k < 1 then ⟨200, ⟨none, some LOAD_IN_PROGRESS⟩⟩
              else ⟨500, ⟨none, none⟩⟩) "j5"
    (by omega) rfl rfl (by decide) (by decide)

/-- C8: whenever a status fetch observes `LOAD_FAILED` (all HTTP
responses successful: the first `j` responses transitional, the one at
index `j` failed), both methods return the failed status normally as
data — an `ok` result, not an error — so a remote-reported failed job is
never converted into a raised exception by this core. -/
theorem remote_failed_returned_as_data (n j : Nat) (postResp : HttpResp)
    (get : Nat → HttpResp) (qid : String)
    (hj : j < n)
    (hpost : postResp.status_code = 200)
    (hid : postResp.body.loadId = some qid)
    (htrans : ∀ k, k < j → okTransitional (get k) = true)
    (h200 : (get j).status_code = 200)
    (hf : (get j).body.overallStatus = some LOAD_FAILED) :
    create_node (some n) postResp get = (.ok LOAD_FAILED, ⟨j + 1, j, 0⟩) ∧
    upsert_node (some n) postResp get = (.ok LOAD_FAILED, ⟨j + 1, j, 1⟩) := by
  have hstop : isStopping LOAD_FAILED = true := by decide
  constructor
  · unfold create_node
    rw [loadAndPoll_submitOk false n postResp get qid hpost hid]
    rw [pollLoop_stop false get n j postResp.body LOAD_FAILED hj htrans h200 hf hstop]
    simp [hf]
  · unfold upsert_node
    rw [loadAndPoll_submitOk true n postResp get qid hpost hid]
    rw [pollLoop_stop true get n j postResp.body LOAD_FAILED hj htrans h200 hf hstop]
    simp [hf]

/-- C8 witness: a first response already failed is returned as data by
both methods (an ok result), with the upsert variant logging it once. -/
theorem remote_failed_returned_as_data_witness :
    create_node (some 2) ⟨200, ⟨some "j6", none⟩⟩
        (fun _ => ⟨200, ⟨none, some LOAD_FAILED⟩⟩) = (.ok LOAD_FAILED, ⟨1, 0, 0⟩) ∧
    upsert_node (some 2) ⟨200, ⟨some "j6", none⟩⟩
        (fun _ => ⟨200, ⟨none, some LOAD_FAILED⟩⟩) = (.ok LOAD_FAILED, ⟨1, 0, 1⟩) :=
  remote_failed_returned_as_data 2 0 ⟨200, ⟨some "j6", none⟩⟩
    (fun _ => ⟨200, ⟨none, some LOAD_FAILED⟩⟩) "j6"
    (by omega) rfl rfl (by omega) rfl rfl

/-- C9: once a status fetch observes `LOAD_COMPLETED` or `LOAD_FAILED`
(at index `j`, after `j` transitional responses), no further status
fetch is performed in the same call — the fetch count is exactly
`j + 1` whatever the remaining budget — and that observed value is the
one returned as final, for both methods. -/
theorem terminal_status_is_final (n j : Nat) (s : LoadStatus)
    (postResp : HttpResp) (get : Nat → HttpResp) (qid : String)
    (hj : j < n)
    (hpost : postResp.status_code = 200)
    (hid : postResp.body.loadId = some qid)
    (htrans : ∀ k, k < j → okTransitional (get k) = true)
    (h200 : (get j).status_code = 200)
    (hs : (get j).body.overallStatus = some s)
    (hterm : s = LOAD_COMPLETED ∨ s = LOAD_FAILED) :
    (create_node (some n) postResp get).2.fetches = j + 1 ∧
    (create_node (some n) postResp get).1 = .ok s ∧
    (upsert_node (some n) postResp get).2.fetches = j + 1 ∧
    (upsert_node (some n) postResp get).1 = .ok s := by
  have hstop : isStopping s = true := by
    rcases hterm with h | h <;> subst h <;> decide
  have hc : create_node (some n) postResp get =
      (.ok s, ⟨j + 1, j, if False ∧ s = LOAD_FAILED then 1 else 0⟩) := by
    unfold create_node
    rw [loadAndPoll_submitOk false n postResp get qid hpost hid]
    rw [pollLoop_stop false get n j postResp.body s hj htrans h200 hs hstop]
    simp [hs]
  have hu : upsert_node (some n) postResp get =
      (.ok s, ⟨j + 1, j, if True ∧ s = LOAD_FAILED then 1 else 0⟩) := by
    unfold upsert_node
    rw [loadAndPoll_submitOk true n postResp get qid hpost hid]
    rw [pollLoop_stop true get n j postResp.body s hj htrans h200 hs hstop]
    simp [hs]
  rw [hc, hu]
  simp

/-- C9 witness: completed observed at the first fetch out of a budget of
3; both methods stop at one fetch and return it as final. -/
theorem terminal_status_is_final_witness :
    (create_node (some 3) ⟨200, ⟨some "j7", none⟩⟩
        (fun _ => ⟨200, ⟨none, some LOAD_COMPLETED⟩⟩)).2.fetches = 0 + 1 ∧
    (create_node (some 3) ⟨200, ⟨some "j7", none⟩⟩
        (fun _ => ⟨200, ⟨none, some LOAD_COMPLETED⟩⟩)).1 = .ok LOAD_COMPLETED ∧
    (upsert_node (some 3) ⟨200, ⟨some "j7", none⟩⟩
        (fun _ => ⟨200, ⟨none, some LOAD_COMPLETED⟩⟩)).2.fetches = 0 + 1 ∧
    (upsert_node (some 3) ⟨200, ⟨some "j7", none⟩⟩
        (fun _ => ⟨200, ⟨none, some LOAD_COMPLETED⟩⟩)).1 = .ok LOAD_COMPLETED :=
  terminal_status_is_final 3 0 LOAD_COMPLETED ⟨200, ⟨some "j7", none⟩⟩
    (fun _ => ⟨200, ⟨none, some LOAD_COMPLETED⟩⟩) "j7"
    (by omega) rfl rfl (by omega) rfl rfl (Or.inl rfl)

/-- C10: the iteration budget has an implicit precondition `limit ≥ 1`.
With `limit = some 0`, after a successful submission (whose response
carries a load id but no overall-status field) the loop body never runs
and the final status lookup is applied to the submission response, so
the call raises the lookup (`KeyError`) error with zero fetches; with
the default `limit = none`, iterating over the budget raises the
`TypeError` before any status fetch. -/
theorem limit_zero_or_none_ill_defined (postResp : HttpResp)
    (get : Nat → HttpResp) (qid : String)
    (hpost : postResp.status_code = 200)
    (hid : postResp.body.loadId = some qid)
    (hnostatus : postResp.body.overallStatus = none) :
    create_node (some 0) postResp get = (.error .keyError, ⟨0, 0, 0⟩) ∧
    upsert_node (some 0) postResp get = (.error .keyError, ⟨0, 0, 0⟩) ∧
    create_node none postResp get = (.error .typeError, ⟨0, 0, 0⟩) ∧
    upsert_node none postResp get = (.error .typeError, ⟨0, 0, 0⟩) := by
  have hsub : submitResult postResp = .ok qid := by
    unfold submitResult
    simp [hpost, hid]
  refine ⟨?_, ?_, ?_, ?_⟩
  · unfold create_node loadAndPoll
    rw [hsub]
    simp [pollLoop, hnostatus]
  · unfold upsert_node loadAndPoll
    rw [hsub]
    simp [pollLoop, hnostatus]
  · unfold create_node loadAndPoll
    rw [hsub]
  · unfold upsert_node loadAndPoll
    rw [hsub]

/-- C10 witness: a successful submission whose response has a load id
but no overall status, polled with budget 0 (lookup error) and with the
default budget (type error), always with zero fetches. -/
theorem limit_zero_or_none_ill_defined_witness :
    create_node (some 0) ⟨200, ⟨some "j8", none⟩⟩
        (fun _ => ⟨200, ⟨none, some LOAD_COMPLETED⟩⟩) = (.error .keyError, ⟨0, 0, 0⟩) ∧
    upsert_node (some 0) ⟨200, ⟨some "j8", none⟩⟩
        (fun _ => ⟨200, ⟨none, some LOAD_COMPLETED⟩⟩) = (.error .keyError, ⟨0, 0, 0⟩) ∧
    create_node none ⟨200, ⟨some "j8", none⟩⟩
        (fun _ => ⟨200, ⟨none, some LOAD_COMPLETED⟩⟩) = (.error .typeError, ⟨0, 0, 0⟩) ∧
    upsert_node none ⟨200, ⟨some "j8", none⟩⟩
        (fun _ => ⟨200, ⟨none, some LOAD_COMPLETED⟩⟩) = (.error .typeError, ⟨0, 0, 0⟩) :=
  limit_zero_or_none_ill_defined ⟨200, ⟨some "j8", none⟩⟩
    (fun _ => ⟨200, ⟨none, some LOAD_COMPLETED⟩⟩) "j8" rfl rfl rfl

end GraphLoader
